import Mathlib

/-!
# Verification of `src/iberia.py`

`iberia.py` is a linear netCDF4-python tutorial script: it opens
`data/iberia.nc` in write mode (line 36), creates three dimensions
(lines 43-45), four variables (lines 64-72), sets global and variable
attributes (lines 91-114), fills the coordinate grids from `np.mgrid`
(line 135), writes two slices into `temp` (lines 156 and 167), converts
24 calendar dates to numeric hours with `date2num` and stores them in
`times` (lines 190-194), converts them back with `num2date` (line 196),
and closes the file (line 200).

This file shallow-embeds the script:

* the dataset handle becomes an explicit `NCState` record threaded
  through one function per script statement;
* numeric cell values are modelled as exact rationals `ℚ` (every value
  the script stores — `10.0*ii+jj+kk` up to `948`, the `mgrid`
  coordinates, and the integral hour counts — is an exact value of the
  idealized arithmetic the script's expressions denote);
* the calendar conversions `date2num`/`num2date` of the external
  netCDF4 library are modelled from their documented behaviour for the
  `'standard'` calendar (proleptic Gregorian for the post-1582 dates
  used here), since the library's own code is not part of this
  repository;
* the temporal claims about the order of library calls are settled on
  an explicit trace `scriptTrace` transcribing the module statement by
  statement.
-/

namespace Iberia

/-! ## Calendar model

Modelled from the spec: the external library functions `date2num` and
`num2date` ("num2date() converts numeric values of time in the
specified units and calendar to datetime objects, and date2num() does
the reverse", lines 184-186 of the source) are not part of this
repository; we model them for units `'hours since <epoch>'` and the
`'standard'` calendar, which coincides with the proleptic Gregorian
calendar on the post-1582 dates the script uses.  The day count is the
classical civil-calendar ordinal (the same computation as CPython's
`datetime.toordinal`): day 1 is 0001-01-01. -/

/-- A calendar instant at whole-hour resolution.  The script only ever
builds datetimes with zero minutes and seconds (`datetime(2020, 2, 1)`
plus whole hours), so hours suffice. -/
structure CalTime where
  year : Nat
  month : Nat
  day : Nat
  hour : Nat
deriving DecidableEq, Repr

/-- Gregorian leap-year test. -/
def isLeap (y : Nat) : Bool :=
  (y % 4 == 0 && y % 100 != 0) || y % 400 == 0

/-- Length of month `m` (1-12). -/
def daysInMonth (leap : Bool) (m : Nat) : Nat :=
  match m with
  | 1 => 31 | 2 => if leap then 29 else 28 | 3 => 31 | 4 => 30
  | 5 => 31 | 6 => 30 | 7 => 31 | 8 => 31 | 9 => 30 | 10 => 31
  | 11 => 30 | 12 => 31 | _ => 0

/-- Days in the months strictly before month `m` of a year. -/
def daysBeforeMonth (leap : Bool) (m : Nat) : Nat :=
  (List.range (m - 1)).foldl (fun acc i => acc + daysInMonth leap (i + 1)) 0

/-- Days in the years strictly before year `y` (year 1 is the first). -/
def daysBeforeYear (y : Nat) : Nat :=
  365 * (y - 1) + (y - 1) / 4 - (y - 1) / 100 + (y - 1) / 400

/-- Proleptic-Gregorian ordinal of a civil date: `toOrdinal 1 1 1 = 1`. -/
def toOrdinal (y m d : Nat) : Nat :=
  daysBeforeYear y + daysBeforeMonth (isLeap y) m + d

/-- Peel whole months off a zero-based day offset within a year,
yielding the (month, day) pair; `fuel` bounds the walk at 11 steps. -/
def monthDayAux (leap : Bool) : Nat → Nat → Nat → Nat × Nat
  | 0, m, r => (m, r + 1)
  | fuel + 1, m, r =>
    if daysInMonth leap m ≤ r then
      monthDayAux leap fuel (m + 1) (r - daysInMonth leap m)
    else (m, r + 1)

/-- Inverse of `toOrdinal`: the civil date of ordinal day `n ≥ 1`. -/
def fromOrdinal (n : Nat) : Nat × Nat × Nat :=
  let n0 := n - 1
  let n400 := n0 / 146097
  let r1 := n0 % 146097
  let n100 := r1 / 36524
  let r2 := r1 % 36524
  let n4 := r2 / 1461
  let r3 := r2 % 1461
  let n1 := r3 / 365
  let r4 := r3 % 365
  let year := 400 * n400 + 100 * n100 + 4 * n4 + n1 + 1
  if n1 = 4 ∨ n100 = 4 then (year - 1, 12, 31)
  else
    let md := monthDayAux (isLeap year) 11 1 r4
    (year, md.1, md.2)

/-- Total whole hours of an instant since the calendar origin. -/
def totalHours (t : CalTime) : Nat :=
  toOrdinal t.year t.month t.day * 24 + t.hour

/-- The instant `h` whole hours after the calendar origin. -/
def ofTotalHours (h : Nat) : CalTime :=
  let ymd := fromOrdinal (h / 24)
  ⟨ymd.1, ymd.2.1, ymd.2.2, h % 24⟩

/-- Python's `t + n * timedelta(hours=1)` at hour resolution. -/
def addHours (t : CalTime) (n : Nat) : CalTime :=
  ofTotalHours (totalHours t + n)

/-- Modelled from the spec: the library's `date2num` for units
`'hours since <epoch>'` and the `'standard'` calendar — the signed
number of hours from the epoch to `t`. -/
def date2numHours (epoch t : CalTime) : Int :=
  (totalHours t : Int) - totalHours epoch

/-- Modelled from the spec: the library's `num2date` for units
`'hours since <epoch>'` and the `'standard'` calendar — the calendar
instant `v` hours after the epoch (stated for the common-era instants
the script uses, where the total is nonnegative). -/
def num2dateHours (epoch : CalTime) (v : Int) : CalTime :=
  ofTotalHours ((totalHours epoch + v).toNat)

/-- The epoch `2001-01-01 00:00:00` of the units string
`'hours since 2001-01-01 00:00:00'` (source line 111). -/
def epoch2001 : CalTime := ⟨2001, 1, 1, 0⟩

/-- The base date `datetime(2020, 2, 1)` of source line 192. -/
def base2020 : CalTime := ⟨2020, 2, 1, 0⟩

/-- The 24 datetimes the script builds (source lines 190-192):
`datetime(2020, 2, 1) + n * timedelta(hours=1)` for `n = 0, …, 23`. -/
def dates24 : List CalTime :=
  (List.range 24).map (addHours base2020)

/-- The numeric time values `date2num(dates, units, calendar)` that
source line 194 stores into `times[:]`, as exact rationals. -/
def timesValues : List ℚ :=
  dates24.map (fun d => (date2numHours epoch2001 d : ℚ))

/-! ## The numpy pieces the script uses

`np.mgrid[a:b:s, c:d:t]` (source line 135) is a pair of dense grids of
shape `(n, m)` where `n` and `m` are the `np.arange` point counts of
the two slices; the first grid varies along the first axis, the second
along the second axis.  The values are modelled in the exact rational
arithmetic the expressions denote. -/

/-- Number of points of `np.arange(start, stop, step)` for a positive
step: `⌈(stop - start) / step⌉` (clamped at zero). -/
def arangeLen (start stop step : ℚ) : Nat :=
  (⌈(stop - start) / step⌉).toNat

/-- First component of `np.mgrid[start:_:step, _]` at index `(i, j)`:
it varies along the first axis only. -/
def mgridFst (start step : ℚ) (i _j : Nat) : ℚ := start + i * step

/-- Second component of `np.mgrid[_, start:_:step]` at index `(i, j)`:
it varies along the second axis only. -/
def mgridSnd (start step : ℚ) (_i j : Nat) : ℚ := start + j * step

/-! ## The dataset state

The single netCDF dataset handle of the script becomes an explicit
state record.  Dimensions and variables are kept in creation order;
`NETCDF4_CLASSIC` admits at most one unlimited dimension, whose current
extent is the `unlimLen` field (it grows when a slice assignment writes
past it, source lines 140-169).  Cell values are exact rationals; the
`data` field maps a variable name and a multi-index to the stored
value (unwritten cells keep the initial default, which no claim
reads). -/

/-- The two element types the script uses: `np.float32`, `np.float64`. -/
inductive DType where
  | f32
  | f64
deriving DecidableEq, Repr

/-- A dimension length: fixed, or unlimited (`createDimension(_, None)`). -/
inductive DimSize where
  | fixed (n : Nat)
  | unlimited
deriving DecidableEq, Repr

/-- Metadata of one variable: element type, dimension names, and its
attribute list in assignment order. -/
structure VarMeta where
  dtype : DType
  dims : List String
  attrs : List (String × String)
deriving DecidableEq, Repr

/-- The state of the open dataset. -/
structure NCState where
  dims : List (String × DimSize)
  unlimLen : Nat
  vars : List (String × VarMeta)
  gattrs : List (String × String)
  data : String → List Nat → ℚ

/-- The freshly opened, empty dataset (source line 36). -/
def initialState : NCState :=
  ⟨[], 0, [], [], fun _ _ => 0⟩

/-- Set key `k` to `v` in an association list: overwrite in place if
present, append otherwise (Python attribute-assignment semantics). -/
def setKV (l : List (String × String)) (k v : String) : List (String × String) :=
  if l.any (fun p => p.1 == k) then
    l.map (fun p => if p.1 == k then (k, v) else p)
  else l ++ [(k, v)]

/-- `dataset.createDimension(name, size)` (source lines 43-45). -/
def createDimension (s : NCState) (name : String) (size : DimSize) : NCState :=
  { s with dims := s.dims ++ [(name, size)] }

/-- Current length of a dimension: its fixed size, or the current
extent of the unlimited dimension (`len(dataset.dimensions[name])`). -/
def dimLen (s : NCState) (name : String) : Nat :=
  match s.dims.lookup name with
  | some (DimSize.fixed n) => n
  | some DimSize.unlimited => s.unlimLen
  | none => 0

/-- `dataset.createVariable(name, dtype, dims)` (source lines 64-72). -/
def createVariable (s : NCState) (name : String) (dt : DType)
    (ds : List String) : NCState :=
  { s with vars := s.vars ++ [(name, ⟨dt, ds, []⟩)] }

/-- The shape of a variable: the current lengths of its dimensions. -/
def shapeOf (s : NCState) (name : String) : List Nat :=
  match s.vars.lookup name with
  | some m => m.dims.map (dimLen s)
  | none => []

/-- Global attribute assignment `dataset.key = v` (source lines 91-93). -/
def setGAttr (s : NCState) (k v : String) : NCState :=
  { s with gattrs := setKV s.gattrs k v }

/-- Variable attribute assignment `var.key = v` (source lines 100-114). -/
def setVAttr (s : NCState) (name k v : String) : NCState :=
  { s with vars := s.vars.map (fun p =>
      if p.1 == name then (p.1, { p.2 with attrs := setKV p.2.attrs k v }) else p) }

/-- Overwrite part of a variable's data: indices where `f` returns
`some` take the new value, all other cells of all variables keep their
previous contents. -/
def writeData (s : NCState) (name : String) (f : List Nat → Option ℚ) : NCState :=
  { s with data := fun v idx =>
      if v = name then (f idx).getD (s.data v idx) else s.data v idx }

/-- Stored value of `temp` at `[i, j, k]`. -/
def tempAt (s : NCState) (i j k : Nat) : ℚ := s.data "temp" [i, j, k]

/-- Stored value of `lat` at `[i, j]`. -/
def latAt (s : NCState) (i j : Nat) : ℚ := s.data "lat" [i, j]

/-- Stored value of `lon` at `[i, j]`. -/
def lonAt (s : NCState) (i j : Nat) : ℚ := s.data "lon" [i, j]

/-- Stored value of `time` at `[n]`. -/
def timeAt (s : NCState) (n : Nat) : ℚ := s.data "time" [n]

/-! ## The script, statement by statement -/

/-- State after the three `createDimension` calls (source lines 43-45). -/
def stateDims : NCState :=
  let s := initialState
  let s := createDimension s "south_north" (DimSize.fixed 320)
  let s := createDimension s "west_east" (DimSize.fixed 400)
  let s := createDimension s "time" DimSize.unlimited
  s

/-- State after the four `createVariable` calls (source lines 64-72). -/
def stateVars : NCState :=
  let s := stateDims
  let s := createVariable s "time" DType.f64 ["time"]
  let s := createVariable s "lat" DType.f32 ["south_north", "west_east"]
  let s := createVariable s "lon" DType.f32 ["south_north", "west_east"]
  let s := createVariable s "temp" DType.f32 ["time", "south_north", "west_east"]
  s

/-- State after the global and variable attribute assignments (source
lines 91-114); `clock` is the `time.ctime(time.time())` string of line
92, the only wall-clock input of the script. -/
def stateAttrs (clock : String) : NCState :=
  let s := stateVars
  let s := setGAttr s "description" "Iberia en 400x320 celdas (3kmx3km por celda)"
  let s := setGAttr s "history" ("Created " ++ clock)
  let s := setGAttr s "source" ""
  let s := setVAttr s "lat" "units" "degrees_north"
  let s := setVAttr s "lat" "long_name" "Latitude"
  let s := setVAttr s "lat" "standard_name" "latitude"
  let s := setVAttr s "lon" "units" "degrees_east"
  let s := setVAttr s "lon" "long_name" "Longitude"
  let s := setVAttr s "lon" "standard_name" "longitude"
  let s := setVAttr s "temp" "long_name" "Temperature at 2 m"
  let s := setVAttr s "temp" "standard_name" "air_temperature"
  let s := setVAttr s "temp" "units" "degC"
  let s := setVAttr s "temp" "coordinates" "lon lat"
  let s := setVAttr s "time" "units" "hours since 2001-01-01 00:00:00"
  let s := setVAttr s "time" "calendar" "standard"
  let s := setVAttr s "time" "long_name" "Time"
  let s := setVAttr s "time" "standard_name" "time"
  s

/-- The row count of the `np.mgrid` grids of source line 135. -/
def mgridRows : Nat := arangeLen 35.5 44 0.0265625

/-- The column count of the `np.mgrid` grids of source line 135. -/
def mgridCols : Nat := arangeLen (-9.5) 4.5 0.035

/-- `latitudes[:], longitudes[:] = np.mgrid[35.5:44:0.0265625,
-9.5:4.5:0.035]` (source line 135): a full-array write of each grid. -/
def assignGrids (s : NCState) : NCState :=
  let s := writeData s "lat" (fun idx =>
    match idx with
    | [i, j] =>
      if i < mgridRows ∧ j < mgridCols then some (mgridFst 35.5 0.0265625 i j) else none
    | _ => none)
  let s := writeData s "lon" (fun idx =>
    match idx with
    | [i, j] =>
      if i < mgridRows ∧ j < mgridCols then some (mgridSnd (-9.5) 0.035 i j) else none
    | _ => none)
  s

/-- State after the coordinate-grid assignment of source line 135. -/
def stateGrids (clock : String) : NCState :=
  assignGrids (stateAttrs clock)

/-- `temp[0:24,:,:] = 10*uniform(size=(24,nlats,nlons))` (source lines
153-156): `r` is the drawn `uniform` array; the write covers indices
`i < 24`, `j < nlats`, `k < nlons` and grows the unlimited dimension to
cover record 23. -/
def assignTempRand (r : Nat → Nat → Nat → ℚ) (s : NCState) : NCState :=
  let nlats := dimLen s "south_north"
  let nlons := dimLen s "west_east"
  { writeData s "temp" (fun idx =>
      match idx with
      | [i, j, k] =>
        if i < 24 ∧ j < nlats ∧ k < nlons then some (10 * r i j k) else none
      | _ => none) with
    unlimLen := max s.unlimLen 24 }

/-- `temp[0:24,:,:] = np.array([[[(10.0*ii)+jj+kk …]]])` (source line
167): the deterministic overwrite of the same slice. -/
def assignTempDet (s : NCState) : NCState :=
  let nlats := dimLen s "south_north"
  let nlons := dimLen s "west_east"
  { writeData s "temp" (fun idx =>
      match idx with
      | [i, j, k] =>
        if i < 24 ∧ j < nlats ∧ k < nlons then some (10 * i + j + k) else none
      | _ => none) with
    unlimLen := max s.unlimLen 24 }

/-- State after the first (random) `temp` slice write of source line
156. -/
def stateTempRand (r : Nat → Nat → Nat → ℚ) (clock : String) : NCState :=
  assignTempRand r (stateGrids clock)

/-- State after the second (deterministic) `temp` slice write of source
line 167. -/
def stateTemp (r : Nat → Nat → Nat → ℚ) (clock : String) : NCState :=
  assignTempDet (stateTempRand r clock)

/-- The dates list built at source lines 190-192: one date per current
record of `temp` (`range(temp.shape[0])`). -/
def datesWritten (r : Nat → Nat → Nat → ℚ) (clock : String) : List CalTime :=
  (List.range (dimLen (stateTemp r clock) "time")).map (addHours base2020)

/-- The numeric values `date2num(dates, units=times.units,
calendar=times.calendar)` computed at source line 194. -/
def storedTimes (r : Nat → Nat → Nat → ℚ) (clock : String) : List ℚ :=
  (datesWritten r clock).map (fun d => (date2numHours epoch2001 d : ℚ))

/-- `times[:] = date2num(...)` (source line 194): writes entries
`0 … len-1` of `time` and grows the unlimited dimension to the list
length. -/
def writeTimes (s : NCState) (vals : List ℚ) : NCState :=
  { writeData s "time" (fun idx =>
      match idx with
      | [n] => vals.get? n
      | _ => none) with
    unlimLen := max s.unlimLen vals.length }

/-- The dataset state at the `dataset.close()` of source line 200. -/
def finalState (r : Nat → Nat → Nat → ℚ) (clock : String) : NCState :=
  writeTimes (stateTemp r clock) (storedTimes r clock)

/-! ## The call trace

For the temporal claims the script is transcribed as the linear list of
library calls it performs, in program order.  `query` stands for a read
(a `print`, a dictionary access, a `len`, a `shape` or attribute read);
the remaining constructors are the mutating or converting calls the
spec's phase list names.  Python evaluates the right-hand side of an
assignment before the store, so on line 194 the `date2num` call
precedes the slice store into `times`. -/

/-- One library call of the script. -/
inductive LibCall where
  | openFile
  | query
  | createDim (name : String)
  | createVar (name : String)
  | setAttr (target key : String)
  | sliceAssign (target : String)
  | dateConv (fn : String)
  | closeFile
deriving DecidableEq, Repr

/-- The library calls of `iberia.py` in program order (the comments
give the source lines). -/
def scriptTrace : List LibCall :=
  [ LibCall.openFile,                      -- 36
    LibCall.query,                         -- 39  print(dataset.file_format)
    LibCall.createDim "south_north",       -- 43
    LibCall.createDim "west_east",         -- 44
    LibCall.createDim "time",              -- 45
    LibCall.query, LibCall.query, LibCall.query,  -- 53-55, one per dimension
    LibCall.createVar "time",              -- 64
    LibCall.createVar "lat",               -- 68
    LibCall.createVar "lon",               -- 69
    LibCall.createVar "temp",              -- 72
    LibCall.query,                         -- 79
    LibCall.query, LibCall.query, LibCall.query, LibCall.query,  -- 80-82, one per variable
    LibCall.setAttr "" "description",      -- 91 (global)
    LibCall.setAttr "" "history",          -- 92
    LibCall.setAttr "" "source",           -- 93
    LibCall.setAttr "lat" "units",         -- 100
    LibCall.setAttr "lat" "long_name",     -- 101
    LibCall.setAttr "lat" "standard_name", -- 102
    LibCall.setAttr "lon" "units",         -- 103
    LibCall.setAttr "lon" "long_name",     -- 104
    LibCall.setAttr "lon" "standard_name", -- 105
    LibCall.setAttr "temp" "long_name",    -- 107
    LibCall.setAttr "temp" "standard_name", -- 108
    LibCall.setAttr "temp" "units",        -- 109
    LibCall.setAttr "temp" "coordinates",  -- 110
    LibCall.setAttr "time" "units",        -- 111
    LibCall.setAttr "time" "calendar",     -- 112
    LibCall.setAttr "time" "long_name",    -- 113
    LibCall.setAttr "time" "standard_name", -- 114
    LibCall.query, LibCall.query,          -- 121-122
    LibCall.sliceAssign "lat",             -- 135 (left target first)
    LibCall.sliceAssign "lon",             -- 135
    LibCall.query, LibCall.query,          -- 137-138
    LibCall.query,                         -- 152 temp.shape
    LibCall.query, LibCall.query,          -- 153-154 len(dimensions[...])
    LibCall.sliceAssign "temp",            -- 156
    LibCall.sliceAssign "temp",            -- 167
    LibCall.query,                         -- 169 temp.shape
    LibCall.query,                         -- 191 temp.shape
    LibCall.query, LibCall.query,          -- 194 times.units, times.calendar
    LibCall.dateConv "date2num",           -- 194 right-hand side
    LibCall.sliceAssign "time",            -- 194 store
    LibCall.query,                         -- 195 times[:], times.units
    LibCall.query, LibCall.query, LibCall.query,  -- 196 times[:], units, calendar
    LibCall.dateConv "num2date",           -- 196
    LibCall.closeFile ]                    -- 200

/-- The phase number the spec's phase list assigns to a call: open 0,
define dimensions 1, define variables 2, set attributes 3, assign array
slices 4, convert dates 5, close 6; reads belong to no phase. -/
def specPhase : LibCall → Option Nat
  | LibCall.openFile => some 0
  | LibCall.createDim _ => some 1
  | LibCall.createVar _ => some 2
  | LibCall.setAttr _ _ => some 3
  | LibCall.sliceAssign _ => some 4
  | LibCall.dateConv _ => some 5
  | LibCall.closeFile => some 6
  | LibCall.query => none

/-- The phase assignment amended at one point: the slice store of the
`date2num` result into `times` (line 194) belongs to the
date-conversion phase, since Python evaluates `date2num` before the
store it feeds. -/
def amendedPhase : LibCall → Option Nat
  | LibCall.sliceAssign t => if t = "time" then some 5 else some 4
  | c => specPhase c

/-- `true` iff consecutive entries of the list never decrease. -/
def monoList : List Nat → Bool
  | [] => true
  | _ :: [] => true
  | a :: b :: rest => a ≤ b && monoList (b :: rest)

/-- A trace respects a phase assignment when the phases of its calls
(reads skipped) never decrease. -/
def PhaseOrdered (phase : LibCall → Option Nat) (t : List LibCall) : Prop :=
  monoList (t.filterMap phase) = true

/-! ## The error model

The script has no `try`/`except` (source lines 1-200): it is a plain
statement sequence, so an exception raised by the call at position `k`
aborts the run with that exception and exactly the calls before `k`
execute.  `fails` is an oracle saying which call (by position) raises
which exception, abstracting over everything the external library may
raise. -/

/-- Run a statement sequence from position `i`: stop at the first
raising call with its exception, otherwise fall off the end. -/
def runCalls (fails : Nat → Option String) : Nat → List LibCall → Except String Unit
  | _, [] => Except.ok ()
  | i, _ :: cs =>
    match fails i with
    | some e => Except.error e
    | none => runCalls fails (i + 1) cs

/-- The calls that actually execute: the result of the raising call is
never stored and nothing after it runs. -/
def executedCalls (fails : Nat → Option String) : Nat → List LibCall → List LibCall
  | _, [] => []
  | i, c :: cs =>
    match fails i with
    | some _ => []
    | none => c :: executedCalls fails (i + 1) cs

/-! ## Evaluation lemmas

A ladder of definitional lemmas exposing one write layer of the data
function at a time (the dimension lookups `nlats`/`nlons` and the
record count reduce to their concrete values). -/

/-- The attribute phase never touches cell data. -/
theorem stateAttrs_data (c : String) (v : String) (idx : List Nat) :
    (stateAttrs c).data v idx = 0 := rfl

/-- One-layer view of the grid assignment of line 135. -/
theorem stateGrids_data (c : String) (v : String) (idx : List Nat) :
    (stateGrids c).data v idx =
      if v = "lon" then
        (match idx with
         | [i, j] =>
           if i < mgridRows ∧ j < mgridCols then some (mgridSnd (-9.5) 0.035 i j) else none
         | _ => none).getD
          (if v = "lat" then
            (match idx with
             | [i, j] =>
               if i < mgridRows ∧ j < mgridCols then some (mgridFst 35.5 0.0265625 i j)
               else none
             | _ => none).getD ((stateAttrs c).data v idx)
           else (stateAttrs c).data v idx)
      else
        if v = "lat" then
          (match idx with
           | [i, j] =>
             if i < mgridRows ∧ j < mgridCols then some (mgridFst 35.5 0.0265625 i j)
             else none
           | _ => none).getD ((stateAttrs c).data v idx)
        else (stateAttrs c).data v idx := rfl

/-- One-layer view of the random `temp` write of line 156. -/
theorem stateTempRand_data (r : Nat → Nat → Nat → ℚ) (c : String)
    (v : String) (idx : List Nat) :
    (stateTempRand r c).data v idx =
      if v = "temp" then
        (match idx with
         | [i, j, k] =>
           if i < 24 ∧ j < 320 ∧ k < 400 then some (10 * r i j k) else none
         | _ => none).getD ((stateGrids c).data v idx)
      else (stateGrids c).data v idx := rfl

/-- One-layer view of the deterministic `temp` overwrite of line 167. -/
theorem stateTemp_data (r : Nat → Nat → Nat → ℚ) (c : String)
    (v : String) (idx : List Nat) :
    (stateTemp r c).data v idx =
      if v = "temp" then
        (match idx with
         | [i, j, k] =>
           if i < 24 ∧ j < 320 ∧ k < 400 then some ((10 * i + j + k : ℚ)) else none
         | _ => none).getD ((stateTempRand r c).data v idx)
      else (stateTempRand r c).data v idx := rfl

/-- One-layer view of the `times[:]` store of line 194. -/
theorem finalState_data (r : Nat → Nat → Nat → ℚ) (c : String)
    (v : String) (idx : List Nat) :
    (finalState r c).data v idx =
      if v = "time" then
        (match idx with
         | [n] => timesValues.get? n
         | _ => none).getD ((stateTemp r c).data v idx)
      else (stateTemp r c).data v idx := rfl

/-- The global attribute list of the closed file. -/
theorem finalState_gattrs (r : Nat → Nat → Nat → ℚ) (c : String) :
    (finalState r c).gattrs =
      [("description", "Iberia en 400x320 celdas (3kmx3km por celda)"),
       ("history", "Created " ++ c), ("source", "")] := rfl

/-- The `np.arange(35.5, 44, 0.0265625)` axis has exactly 320 points:
`(44 - 35.5) / 0.0265625 = 320` exactly. -/
theorem mgridRows_eq : mgridRows = 320 := by
  unfold mgridRows arangeLen
  norm_num
  decide

/-- The `np.arange(-9.5, 4.5, 0.035)` axis has exactly 400 points:
`(4.5 - (-9.5)) / 0.035 = 400` exactly. -/
theorem mgridCols_eq : mgridCols = 400 := by
  unfold mgridCols arangeLen
  norm_num
  decide

/-- A plain statement sequence stops at its first raising call: the
exception is returned unmodified and exactly the preceding calls
execute. -/
theorem runCalls_stops (fails : Nat → Option String) :
    ∀ (cs : List LibCall) (i k : Nat) (e : String), k < cs.length →
      fails (i + k) = some e → (∀ j, j < k → fails (i + j) = none) →
      runCalls fails i cs = Except.error e ∧
      executedCalls fails i cs = cs.take k := by
  intro cs
  induction cs with
  | nil =>
    intro i k e hk _ _
    exact absurd hk (by simp)
  | cons c cs ih =>
    intro i k e hk hke hnone
    cases k with
    | zero =>
      rw [Nat.add_zero] at hke
      constructor
      · show (match fails i with
          | some e => Except.error e
          | none => runCalls fails (i + 1) cs) = Except.error e
        rw [hke]
      · show (match fails i with
          | some _ => []
          | none => c :: executedCalls fails (i + 1) cs) = List.take 0 (c :: cs)
        rw [hke]
        rfl
    | succ k' =>
      have h0 : fails i = none := by
        have h := hnone 0 (Nat.succ_pos k')
        rwa [Nat.add_zero] at h
      have hke' : fails (i + 1 + k') = some e := by
        rw [show i + 1 + k' = i + (k' + 1) by omega]
        exact hke
      have hnone' : ∀ j, j < k' → fails (i + 1 + j) = none := by
        intro j hj
        rw [show i + 1 + j = i + (j + 1) by omega]
        exact hnone (j + 1) (by omega)
      have ihh := ih (i + 1) k' e (by simpa using hk) hke' hnone'
      constructor
      · show (match fails i with
          | some e => Except.error e
          | none => runCalls fails (i + 1) cs) = Except.error e
        rw [h0]
        exact ihh.1
      · show (match fails i with
          | some _ => []
          | none => c :: executedCalls fails (i + 1) cs) = List.take (k' + 1) (c :: cs)
        rw [h0, List.take_succ_cons, ihh.2]

/-- Final stored `temp` cell: the deterministic overwrite inside the
written slice, the untouched default outside, for every draw `r`. -/
theorem tempAt_final (r : Nat → Nat → Nat → ℚ) (c : String) (i j k : Nat) :
    tempAt (finalState r c) i j k =
      if i < 24 ∧ j < 320 ∧ k < 400 then ((10 * i + j + k : ℚ)) else 0 := by
  show (finalState r c).data "temp" [i, j, k] = _
  rw [finalState_data, stateTemp_data, stateTempRand_data, stateGrids_data]
  simp only [String.reduceEq, reduceIte]
  by_cases hg : i < 24 ∧ j < 320 ∧ k < 400 <;> simp [hg, stateAttrs_data]

/-- Final stored `lat` cell: the first `mgrid` component. -/
theorem latAt_final (r : Nat → Nat → Nat → ℚ) (c : String) (i j : Nat) :
    latAt (finalState r c) i j =
      if i < mgridRows ∧ j < mgridCols then mgridFst 35.5 0.0265625 i j else 0 := by
  show (finalState r c).data "lat" [i, j] = _
  rw [finalState_data, stateTemp_data, stateTempRand_data, stateGrids_data]
  simp only [String.reduceEq, reduceIte]
  by_cases hg : i < mgridRows ∧ j < mgridCols <;> simp [hg, stateAttrs_data]

/-- Final stored `lon` cell: the second `mgrid` component. -/
theorem lonAt_final (r : Nat → Nat → Nat → ℚ) (c : String) (i j : Nat) :
    lonAt (finalState r c) i j =
      if i < mgridRows ∧ j < mgridCols then mgridSnd (-9.5) 0.035 i j else 0 := by
  show (finalState r c).data "lon" [i, j] = _
  rw [finalState_data, stateTemp_data, stateTempRand_data, stateGrids_data]
  simp only [String.reduceEq, reduceIte]
  by_cases hg : i < mgridRows ∧ j < mgridCols <;> simp [hg, stateAttrs_data]

/-- Final stored `time` cell: entry `n` of the `date2num` output. -/
theorem timeAt_final (r : Nat → Nat → Nat → ℚ) (c : String) (n : Nat) :
    timeAt (finalState r c) n = (timesValues.get? n).getD 0 := by
  show (finalState r c).data "time" [n] = _
  rw [finalState_data, stateTemp_data, stateTempRand_data, stateGrids_data]
  simp only [String.reduceEq, reduceIte]
  rw [stateAttrs_data]

/-! ## The claims -/

/-- C1: After the two slice assignments to `temp` (lines 156 and 167)
the unlimited `time` dimension has grown to length 24, `temp` has shape
`(24, 320, 400)`, and every stored cell holds `10.0*ii + jj + kk`,
whatever the earlier random draw `r` wrote: the second, deterministic
assignment fully overwrites the first. -/
theorem c1_temp_overwritten (r : Nat → Nat → Nat → ℚ) (clock : String)
    (ii jj kk : Nat) (hii : ii < 24) (hjj : jj < 320) (hkk : kk < 400) :
    dimLen (stateTemp r clock) "time" = 24 ∧
    shapeOf (stateTemp r clock) "temp" = [24, 320, 400] ∧
    tempAt (stateTemp r clock) ii jj kk = 10 * ii + jj + kk := by
  refine ⟨rfl, rfl, ?_⟩
  show (stateTemp r clock).data "temp" [ii, jj, kk] = _
  rw [stateTemp_data]
  simp only [if_pos rfl]
  rw [if_pos (show ii < 24 ∧ jj < 320 ∧ kk < 400 from ⟨hii, hjj, hkk⟩)]
  rfl

/-- Witness for C1 at `(ii, jj, kk) = (1, 2, 3)` under a nonzero
uniform draw. -/
theorem c1_witness :
    ((1 : Nat) < 24 ∧ (2 : Nat) < 320 ∧ (3 : Nat) < 400) ∧
    (dimLen (stateTemp (fun _ _ _ => 1/7) "now") "time" = 24 ∧
     shapeOf (stateTemp (fun _ _ _ => 1/7) "now") "temp" = [24, 320, 400] ∧
     tempAt (stateTemp (fun _ _ _ => 1/7) "now") 1 2 3 =
       10 * ((1 : Nat) : ℚ) + ((2 : Nat) : ℚ) + ((3 : Nat) : ℚ)) :=
  ⟨⟨by decide, by decide, by decide⟩,
   c1_temp_overwritten (fun _ _ _ => 1/7) "now" 1 2 3 (by decide) (by decide) (by decide)⟩

/-- C2: The numeric time values the script writes through `date2num`
for the 24 datetimes `datetime(2020,2,1) + n*timedelta(hours=1)` under
units `'hours since 2001-01-01 00:00:00'` and the standard calendar are
exactly `167280 + n` (6970 days of 24 hours between 2001-01-01 and
2020-02-01), both as the integer hour counts `date2num` yields and as
the values stored into `times[:]`. -/
theorem c2_time_values :
    (∀ r c, storedTimes r c = timesValues) ∧
    dates24.map (date2numHours epoch2001)
      = (List.range 24).map (fun n : Nat => (167280 + (n : Int))) ∧
    timesValues = (List.range 24).map (fun n : Nat => (167280 + (n : ℚ))) := by
  have hInt : dates24.map (date2numHours epoch2001)
      = (List.range 24).map (fun n : Nat => (167280 + (n : Int))) := by decide
  refine ⟨fun _ _ => rfl, hInt, ?_⟩
  have h1 : timesValues
      = (dates24.map (date2numHours epoch2001)).map (fun z : Int => (z : ℚ)) := by
    simp [timesValues, List.map_map, Function.comp]
  rw [h1, hInt, List.map_map]
  refine List.map_congr_left ?_
  intro n _
  show (((167280 + (n : Int)) : Int) : ℚ) = 167280 + (n : ℚ)
  push_cast
  ring

/-- C3: The date conversion round-trips: applying `num2date` to the
`date2num` value of each of the 24 dates the script builds (same units
and calendar) returns the original calendar date. -/
theorem c3_roundtrip :
    dates24.map (fun d => num2dateHours epoch2001 (date2numHours epoch2001 d))
      = dates24 := by decide

/-- C4: The script creates exactly three dimensions — `south_north` of
fixed length 320, `west_east` of fixed length 400, and the unlimited
`time` (created with size `None`) — and the trace contains no other
`createDimension` call. -/
theorem c4_dimensions (r : Nat → Nat → Nat → ℚ) (c : String) :
    (finalState r c).dims =
      [("south_north", DimSize.fixed 320), ("west_east", DimSize.fixed 400),
       ("time", DimSize.unlimited)] ∧
    scriptTrace.filterMap
        (fun call => match call with
          | LibCall.createDim n => some n
          | _ => none)
      = ["south_north", "west_east", "time"] :=
  ⟨rfl, by decide⟩

/-- Witness for C4 under a concrete draw and clock string. -/
theorem c4_witness :
    (finalState (fun _ _ _ => 1/2) "now").dims =
      [("south_north", DimSize.fixed 320), ("west_east", DimSize.fixed 400),
       ("time", DimSize.unlimited)] ∧
    scriptTrace.filterMap
        (fun call => match call with
          | LibCall.createDim n => some n
          | _ => none)
      = ["south_north", "west_east", "time"] :=
  c4_dimensions (fun _ _ _ => 1/2) "now"

/-- C5: The script creates exactly four variables with the stated
types, dimensions and metadata — `time` (float64 over `('time',)`,
units `'hours since 2001-01-01 00:00:00'`, calendar `'standard'`),
`lat`/`lon` (float32 over `('south_north','west_east')`, units
`'degrees_north'`/`'degrees_east'`), `temp` (float32 over
`('time','south_north','west_east')`, units `'degC'`, standard_name
`'air_temperature'`) — and sets exactly the three global attributes
`description`, `history` and `source`. -/
theorem c5_variables (r : Nat → Nat → Nat → ℚ) (c : String) :
    (finalState r c).vars =
      [("time", ⟨DType.f64, ["time"],
         [("units", "hours since 2001-01-01 00:00:00"), ("calendar", "standard"),
          ("long_name", "Time"), ("standard_name", "time")]⟩),
       ("lat", ⟨DType.f32, ["south_north", "west_east"],
         [("units", "degrees_north"), ("long_name", "Latitude"),
          ("standard_name", "latitude")]⟩),
       ("lon", ⟨DType.f32, ["south_north", "west_east"],
         [("units", "degrees_east"), ("long_name", "Longitude"),
          ("standard_name", "longitude")]⟩),
       ("temp", ⟨DType.f32, ["time", "south_north", "west_east"],
         [("long_name", "Temperature at 2 m"), ("standard_name", "air_temperature"),
          ("units", "degC"), ("coordinates", "lon lat")]⟩)] ∧
    (finalState r c).gattrs =
      [("description", "Iberia en 400x320 celdas (3kmx3km por celda)"),
       ("history", "Created " ++ c), ("source", "")] :=
  ⟨rfl, rfl⟩

/-- Witness for C5 under a concrete draw and clock string. -/
theorem c5_witness :
    (finalState (fun _ _ _ => 1/2) "now").vars =
      [("time", ⟨DType.f64, ["time"],
         [("units", "hours since 2001-01-01 00:00:00"), ("calendar", "standard"),
          ("long_name", "Time"), ("standard_name", "time")]⟩),
       ("lat", ⟨DType.f32, ["south_north", "west_east"],
         [("units", "degrees_north"), ("long_name", "Latitude"),
          ("standard_name", "latitude")]⟩),
       ("lon", ⟨DType.f32, ["south_north", "west_east"],
         [("units", "degrees_east"), ("long_name", "Longitude"),
          ("standard_name", "longitude")]⟩),
       ("temp", ⟨DType.f32, ["time", "south_north", "west_east"],
         [("long_name", "Temperature at 2 m"), ("standard_name", "air_temperature"),
          ("units", "degC"), ("coordinates", "lon lat")]⟩)] ∧
    (finalState (fun _ _ _ => 1/2) "now").gattrs =
      [("description", "Iberia en 400x320 celdas (3kmx3km por celda)"),
       ("history", "Created " ++ "now"), ("source", "")] :=
  c5_variables (fun _ _ _ => 1/2) "now"

/-- C6: One dataset handle used linearly: the open is the first library
call and happens exactly once, the close is the last and happens
exactly once, so every other dataset operation of the trace lies
strictly between them and none follows the close. -/
theorem c6_single_handle :
    scriptTrace.head? = some LibCall.openFile ∧
    scriptTrace.getLast? = some LibCall.closeFile ∧
    scriptTrace.count LibCall.openFile = 1 ∧
    scriptTrace.count LibCall.closeFile = 1 := by decide

/-- C7 counterexample: the trace is NOT ordered by the spec's phases —
on line 194 the `date2num` call (phase: convert dates) precedes the
array-slice store `times[:] = ...` (phase: assign array slices), since
Python evaluates the right-hand side first. -/
theorem c7_counterexample : ¬ PhaseOrdered specPhase scriptTrace := by
  unfold PhaseOrdered
  decide

/-- C7 (amended): the phase order holds once the single slice store of
the `date2num` result into `times` is counted in the date-conversion
phase; in particular every other array-slice assignment precedes every
date-conversion call. -/
theorem c7_phase_order : PhaseOrdered amendedPhase scriptTrace := by
  unfold PhaseOrdered
  decide

/-- C8: The `np.mgrid[35.5:44:0.0265625, -9.5:4.5:0.035]` grids have
shape `(320, 400)`, matching the `('south_north','west_east')` shape of
`lat` and `lon` (so the slice assignment has no shape mismatch), and
the stored values are `lat[i,j] = 35.5 + 0.0265625*i` and
`lon[i,j] = -9.5 + 0.035*j`. -/
theorem c8_grids (r : Nat → Nat → Nat → ℚ) (c : String)
    (i j : Nat) (hi : i < 320) (hj : j < 400) :
    mgridRows = 320 ∧ mgridCols = 400 ∧
    shapeOf (stateAttrs c) "lat" = [320, 400] ∧
    shapeOf (stateAttrs c) "lon" = [320, 400] ∧
    latAt (finalState r c) i j = 35.5 + 0.0265625 * i ∧
    lonAt (finalState r c) i j = -9.5 + 0.035 * j := by
  have hij : i < mgridRows ∧ j < mgridCols := by
    rw [mgridRows_eq, mgridCols_eq]
    exact ⟨hi, hj⟩
  refine ⟨mgridRows_eq, mgridCols_eq, rfl, rfl, ?_, ?_⟩
  · rw [latAt_final, if_pos hij]
    unfold mgridFst
    ring
  · rw [lonAt_final, if_pos hij]
    unfold mgridSnd
    ring

/-- Witness for C8 at `(i, j) = (1, 2)`. -/
theorem c8_witness :
    ((1 : Nat) < 320 ∧ (2 : Nat) < 400) ∧
    (mgridRows = 320 ∧ mgridCols = 400 ∧
     shapeOf (stateAttrs "now") "lat" = [320, 400] ∧
     shapeOf (stateAttrs "now") "lon" = [320, 400] ∧
     latAt (finalState (fun _ _ _ => 1/7) "now") 1 2 = 35.5 + 0.0265625 * ((1 : Nat) : ℚ) ∧
     lonAt (finalState (fun _ _ _ => 1/7) "now") 1 2 = -9.5 + 0.035 * ((2 : Nat) : ℚ)) :=
  ⟨⟨by decide, by decide⟩,
   c8_grids (fun _ _ _ => 1/7) "now" 1 2 (by decide) (by decide)⟩

/-- C9: The script handles no errors: whichever library call raises
first (oracle `fails`, position `k`), the exception propagates to the
top level unmodified and exactly the calls before position `k`
execute. -/
theorem c9_no_error_handling (fails : Nat → Option String) (k : Nat) (e : String)
    (hk : k < scriptTrace.length) (hke : fails k = some e)
    (hnone : ∀ j, j < k → fails j = none) :
    runCalls fails 0 scriptTrace = Except.error e ∧
    executedCalls fails 0 scriptTrace = scriptTrace.take k := by
  exact runCalls_stops fails scriptTrace 0 k e hk
    (by simpa using hke) (fun j hj => by simpa using hnone j hj)

/-- Witness for C9: the call at position 5 (a `createDimension`) raises
`RuntimeError`; the run aborts with it after executing five calls. -/
theorem c9_witness :
    ((5 : Nat) < scriptTrace.length ∧
     (fun i => if i = 5 then some "RuntimeError" else none) 5 = some "RuntimeError" ∧
     (∀ j, j < 5 → (fun i => if i = 5 then some "RuntimeError" else none) j = none)) ∧
    runCalls (fun i => if i = 5 then some "RuntimeError" else none) 0 scriptTrace
      = Except.error "RuntimeError" ∧
    executedCalls (fun i => if i = 5 then some "RuntimeError" else none) 0 scriptTrace
      = scriptTrace.take 5 :=
  ⟨⟨by decide, rfl, by decide⟩,
   c9_no_error_handling (fun i => if i = 5 then some "RuntimeError" else none) 5
     "RuntimeError" (by decide) rfl (by decide)⟩

/-- C10: The stored contents of `temp`, `lat`, `lon` and `time`, and
the dimensions and variable metadata, are identical across any two runs
(any uniform draws `r1`, `r2`, any clock strings): the random write is
fully shadowed by the deterministic overwrite; only the global
`history` attribute, which embeds the wall clock, can differ. -/
theorem c10_determinism (r1 r2 : Nat → Nat → Nat → ℚ) (c1 c2 : String) :
    (∀ i j k, tempAt (finalState r1 c1) i j k = tempAt (finalState r2 c2) i j k) ∧
    (∀ i j, latAt (finalState r1 c1) i j = latAt (finalState r2 c2) i j) ∧
    (∀ i j, lonAt (finalState r1 c1) i j = lonAt (finalState r2 c2) i j) ∧
    (∀ n, timeAt (finalState r1 c1) n = timeAt (finalState r2 c2) n) ∧
    (finalState r1 c1).dims = (finalState r2 c2).dims ∧
    (finalState r1 c1).unlimLen = (finalState r2 c2).unlimLen ∧
    (finalState r1 c1).vars = (finalState r2 c2).vars ∧
    (∀ k, k ≠ "history" →
      List.lookup k (finalState r1 c1).gattrs = List.lookup k (finalState r2 c2).gattrs) ∧
    List.lookup "history" (finalState r1 c1).gattrs = some ("Created " ++ c1) := by
  refine ⟨?_, ?_, ?_, ?_, rfl, rfl, rfl, ?_, rfl⟩
  · intro i j k
    rw [tempAt_final, tempAt_final]
  · intro i j
    rw [latAt_final, latAt_final]
  · intro i j
    rw [lonAt_final, lonAt_final]
  · intro n
    rw [timeAt_final, timeAt_final]
  · intro k hk
    rw [finalState_gattrs, finalState_gattrs]
    by_cases h1 : k = "description"
    · subst h1; rfl
    · by_cases h2 : k = "source"
      · subst h2; rfl
      · have b1 : (k == "description") = false := beq_eq_false_iff_ne.mpr h1
        have b2 : (k == "history") = false := beq_eq_false_iff_ne.mpr hk
        have b3 : (k == "source") = false := beq_eq_false_iff_ne.mpr h2
        simp [List.lookup, b1, b2, b3]

/-- Witness for C10: two concrete runs with different draws and clock
strings store the same `temp` data and the same `description`
attribute. -/
theorem c10_witness :
    (∀ i j k, tempAt (finalState (fun _ _ _ => 1/3) "Mon") i j k
      = tempAt (finalState (fun _ _ _ => 2/5) "Tue") i j k) ∧
    ("description" ≠ "history") ∧
    List.lookup "description" (finalState (fun _ _ _ => 1/3) "Mon").gattrs
      = List.lookup "description" (finalState (fun _ _ _ => 2/5) "Tue").gattrs :=
  ⟨(c10_determinism (fun _ _ _ => 1/3) (fun _ _ _ => 2/5) "Mon" "Tue").1,
   by decide,
   (c10_determinism (fun _ _ _ => 1/3) (fun _ _ _ => 2/5) "Mon" "Tue").2.2.2.2.2.2.2.1
     "description" (by decide)⟩

end Iberia
